import Mathlib

/-!
Verification of the ibis backend-agnostic SQL translation core
(`ibis/backends/base/sql/registry/window.py` and
`ibis/backends/base/sql/alchemy/registry.py`).

The operation-node graph, window frames and frame boundaries are embedded as
inductive types; the two translation paths (string-SQL fragments and
SQLAlchemy expression objects) are embedded as functions over those types.
Translation of sub-nodes that the cited code delegates to the surrounding
translator (`translator.translate` / `t.translate`) is abstracted as a
function parameter, exactly as the source receives a translator object.
Python exceptions are modelled with an `Except` error type.
-/

/-- Output type descriptors of expression nodes (`ibis.expr.datatypes`).
Only the predicates the translated code consults are modelled. -/
inductive DType where
  | int8
  | int16
  | int32
  | int64
  | float64
  | booleanT
  | stringT
  | timestampT
  | dateT
  | timeT
  | binaryT
  | jsonT
  | nullT
  | interval (unit : String)
deriving DecidableEq

def DType.is_numeric : DType → Bool
  | .int8 | .int16 | .int32 | .int64 | .float64 => true
  | _ => false

def DType.is_integer : DType → Bool
  | .int8 | .int16 | .int32 | .int64 => true
  | _ => false

def DType.is_temporal : DType → Bool
  | .timestampT | .dateT | .timeT => true
  | _ => false

def DType.is_timestamp : DType → Bool
  | .timestampT => true
  | _ => false

def DType.is_binary : DType → Bool
  | .binaryT => true
  | _ => false

def DType.is_string : DType → Bool
  | .stringT => true
  | _ => false

def DType.is_json : DType → Bool
  | .jsonT => true
  | _ => false

def DType.is_boolean : DType → Bool
  | .booleanT => true
  | _ => false

/-- The `unit` attribute of an interval type (`dt.Interval.unit`). -/
def DType.unit : DType → String
  | .interval u => u
  | _ => ""

/-- Plain reduction kinds (`ibis.expr.operations.reductions`). -/
inductive AggKind where
  | sum
  | min
  | max
  | mean
  | any
  | all
  | count
  | approxMedian
  | groupConcat
  | approxCountDistinct
deriving DecidableEq

/-- Cumulative aggregate kinds (`ops.CumulativeOp` subclasses). -/
inductive CumKind where
  | sum
  | min
  | max
  | mean
  | any
  | all
deriving DecidableEq

/-- Rank-family analytic kinds. -/
inductive RankKind where
  | rowNumber
  | denseRank
  | minRank
  | percentRank
  | cumeDist
  | ntile
deriving DecidableEq

def AggKind.typeName : AggKind → String
  | .sum => "Sum"
  | .min => "Min"
  | .max => "Max"
  | .mean => "Mean"
  | .any => "Any"
  | .all => "All"
  | .count => "Count"
  | .approxMedian => "ApproxMedian"
  | .groupConcat => "GroupConcat"
  | .approxCountDistinct => "ApproxCountDistinct"

def CumKind.typeName : CumKind → String
  | .sum => "CumulativeSum"
  | .min => "CumulativeMin"
  | .max => "CumulativeMax"
  | .mean => "CumulativeMean"
  | .any => "CumulativeAny"
  | .all => "CumulativeAll"

def RankKind.typeName : RankKind → String
  | .rowNumber => "RowNumber"
  | .denseRank => "DenseRank"
  | .minRank => "MinRank"
  | .percentRank => "PercentRank"
  | .cumeDist => "CumeDist"
  | .ntile => "NTile"

mutual
/-- An operation node of the typed expression graph (`ibis.expr.operations`).
Literal values are modelled as integers, which covers every literal the
cited translation rules inspect. -/
inductive Op where
  | literal (value : Int) (dtype : DType)
  | nullLit
  | column (nm : String) (dtype : DType)
  | cast (arg : Op) (toTy : DType)
  | multiply (left : Op) (right : Op)
  | binop (nm : String) (left : Op) (right : Op)
  | agg (k : AggKind) (arg : Op) (whr : Option Op)
  | cumulative (k : CumKind) (arg : Op) (whr : Option Op)
  | rank (k : RankKind) (arg : Option Op)
  | sortKey (expr : Op) (ascending : Bool)
  | aliasOp (arg : Op) (nm : String)
  | whereOp (cond : Op) (ifTrue : Op) (ifFalse : Option Op)
  | countStarOp (whr : Option Op)
  | windowFunction (func : Op) (frame : Frame)

/-- A window frame (`ops.RowsWindowFrame` / `ops.RangeWindowFrame`):
group-by keys, order-by keys (sort-key nodes), start and end boundaries,
and (rows only) an optional max-lookback. -/
inductive Frame where
  | rows (group_by : List Op) (order_by : List Op)
      (start : Option Boundary) (stop : Option Boundary)
      (max_lookback : Option Int)
  | range (group_by : List Op) (order_by : List Op)
      (start : Option Boundary) (stop : Option Boundary)

/-- A frame boundary (`ops.WindowBoundary`): an offset value node plus a
preceding/following direction flag. -/
inductive Boundary where
  | mk (value : Op) (preceding : Bool)
end

def Boundary.value : Boundary → Op
  | .mk v _ => v

def Boundary.preceding : Boundary → Bool
  | .mk _ p => p

/-- `boundary.copy(value=...)`: a new boundary with the value replaced. -/
def Boundary.copyValue : Boundary → Op → Boundary
  | .mk _ p, v => .mk v p

def Frame.group_by : Frame → List Op
  | .rows gb _ _ _ _ => gb
  | .range gb _ _ _ => gb

def Frame.order_by : Frame → List Op
  | .rows _ ob _ _ _ => ob
  | .range _ ob _ _ => ob

def Frame.start : Frame → Option Boundary
  | .rows _ _ s _ _ => s
  | .range _ _ s _ => s

def Frame.stop : Frame → Option Boundary
  | .rows _ _ _ e _ => e
  | .range _ _ _ e => e

def Frame.max_lookback : Frame → Option Int
  | .rows _ _ _ _ ml => ml
  | .range _ _ _ _ => none

/-- `frame.how`: `'rows'` for row frames, `'range'` for range frames. -/
def Frame.how : Frame → String
  | .rows _ _ _ _ _ => "rows"
  | .range _ _ _ _ => "range"

/-- `frame.copy(start=..., end=...)`: same kind and keys, new bounds. -/
def Frame.copyStartEnd : Frame → Option Boundary → Option Boundary → Frame
  | .rows gb ob _ _ ml, s, e => .rows gb ob s e ml
  | .range gb ob _ _, s, e => .range gb ob s e

/-- `frame.copy(order_by=...)`: same kind, bounds and grouping, new order keys. -/
def Frame.copyOrderBy : Frame → List Op → Frame
  | .rows gb _ s e ml, ob => .rows gb ob s e ml
  | .range gb _ s e, ob => .range gb ob s e

/-- `frame.copy(order_by=..., start=..., end=...)`. -/
def Frame.copyOrderStartEnd : Frame → List Op → Option Boundary → Option Boundary → Frame
  | .rows gb _ _ _ ml, ob, s, e => .rows gb ob s e ml
  | .range gb _ _ _, ob, s, e => .range gb ob s e

/-- The node's output type descriptor (`op.output_dtype`). -/
def Op.output_dtype : Op → DType
  | .literal _ d => d
  | .nullLit => .nullT
  | .column _ d => d
  | .cast _ t => t
  | .multiply l _ => l.output_dtype
  | .binop _ _ _ => .booleanT
  | .agg _ a _ => a.output_dtype
  | .cumulative _ a _ => a.output_dtype
  | .rank _ _ => .int64
  | .sortKey e _ => e.output_dtype
  | .aliasOp a _ => a.output_dtype
  | .whereOp _ t _ => t.output_dtype
  | .countStarOp _ => .int64
  | .windowFunction f _ => f.output_dtype

/-- The boundary's output type (`ops.WindowBoundary.output_dtype` is the
type of its value). -/
def Boundary.output_dtype : Boundary → DType :=
  fun b => b.value.output_dtype

/-- The Python runtime type of a node (`type(op)`), rendered by its class
name; used for rewrite-table keys and error messages. -/
def Op.typeName : Op → String
  | .literal _ _ => "Literal"
  | .nullLit => "NullLiteral"
  | .column _ _ => "TableColumn"
  | .cast _ _ => "Cast"
  | .multiply _ _ => "Multiply"
  | .binop nm _ _ => nm
  | .agg k _ _ => k.typeName
  | .cumulative k _ _ => k.typeName
  | .rank k _ => k.typeName
  | .sortKey _ _ => "SortKey"
  | .aliasOp _ _ => "Alias"
  | .whereOp _ _ _ => "Where"
  | .countStarOp _ => "CountStar"
  | .windowFunction _ _ => "WindowFunction"

/-- The node's display-name attribute (`op.name`); modelled by the type
name — the exact display string does not affect any property proved here. -/
def Op.nameAttr : Op → String := Op.typeName

/-- `isinstance(op, ops.CumulativeOp)`. -/
def Op.isCumulativeOp : Op → Bool
  | .cumulative _ _ _ => true
  | _ => false

/-- `isinstance(op, (ops.ApproxMedian, ops.GroupConcat, ops.ApproxCountDistinct))`. -/
def Op.isUnsupportedWindowReduction : Op → Bool
  | .agg .approxMedian _ _ => true
  | .agg .groupConcat _ _ => true
  | .agg .approxCountDistinct _ _ => true
  | _ => false

/-- Modelled from the spec: `isinstance(op, ops.RankBase)`. The `RankBase`
class hierarchy lives in `ibis.expr.operations`, which is not under `src/`;
per the spec the rank family comprises row-number, dense-rank, min-rank,
percent-rank, cumulative-distribution and ntile. -/
def Op.isRankBase : Op → Bool
  | .rank _ _ => true
  | _ => false

/-- `isinstance(op, (ops.RowNumber, ops.DenseRank, ops.MinRank, ops.NTile))` —
the explicit tuple tested by the SQLAlchemy `_window_function`. -/
def Op.isRowNumberLike : Op → Bool
  | .rank .rowNumber _ => true
  | .rank .denseRank _ => true
  | .rank .minRank _ => true
  | .rank .ntile _ => true
  | _ => false

/-- The node's `arg` attribute, where one exists. -/
def Op.funcArg : Op → Option Op
  | .agg _ a _ => some a
  | .cumulative _ a _ => some a
  | .rank _ a => a
  | .cast a _ => some a
  | .aliasOp a _ => some a
  | _ => none

/-- The node's `args` tuple, as the list of its child operand nodes. -/
def Op.args : Op → List Op
  | .literal _ _ => []
  | .nullLit => []
  | .column _ _ => []
  | .cast a _ => [a]
  | .multiply l r => [l, r]
  | .binop _ l r => [l, r]
  | .agg _ a w => a :: w.toList
  | .cumulative _ a w => a :: w.toList
  | .rank _ a => a.toList
  | .sortKey e _ => [e]
  | .aliasOp a _ => [a]
  | .whereOp c t f => c :: t :: f.toList
  | .countStarOp w => w.toList
  | .windowFunction f _ => [f]

/-- The `where` filter-predicate attribute of an aggregate node. -/
def Op.whereAttr : Op → Option Op
  | .agg _ _ w => w
  | .cumulative _ _ w => w
  | .countStarOp w => w
  | _ => none

/-- Coercion applied by frame validators to entries of `order_by`:
a value that is not already a sort key becomes an ascending sort key. -/
def Op.toSortKey : Op → Op
  | .sortKey e a => .sortKey e a
  | o => .sortKey o true

/-- Python exceptions raised by the translated code. -/
inductive Err where
  | ibisError (msg : String)
  | ibisInputError (msg : String)
  | unsupportedOperationError (msg : String)
  | notImplementedError (msg : String)
  | translationError (msg : String)
  | keyError
  | indexError
  | attributeError
deriving DecidableEq

/-- Unit-to-microsecond conversion table (`_map_interval_to_microseconds`). -/
def mapIntervalToMicroseconds : String → Option Int
  | "W" => some 604800000000
  | "D" => some 86400000000
  | "h" => some 3600000000
  | "m" => some 60000000
  | "s" => some 1000000
  | "ms" => some 1000
  | "us" => some 1
  | _ => none

/-- `_cumulative_to_reduction`: cumulative aggregate class to plain
reduction class. -/
def cumulative_to_reduction : CumKind → AggKind
  | .sum => .sum
  | .min => .min
  | .max => .max
  | .mean => .mean
  | .any => .any
  | .all => .all

/-- Modelled from the spec: `ibis.expr.analysis.windowize_function` is not
under `src/`; per the spec, a reduction windowed with a frame becomes the
corresponding window-function node over that frame. -/
def windowize_function (func : Op) (frame : Frame) : Op :=
  .windowFunction func frame

/-- The boundary that `frame.copy(end=0)` coerces the integer `0` into:
a literal-zero window boundary. -/
def zeroBoundary : Boundary := .mk (.literal 0 .int8) false

/-- A compiler rewrite-rule table and the dialect capability flags that the
string-SQL translator (`translator`) exposes to the window rules:
`_rewrites` (keyed by node type), `_forbids_frame_clause` and
`_require_order_by` (both `isinstance` checks against class tuples,
modelled as predicates on nodes). -/
structure TransCfg where
  rewrites : String → Option (Op → Op)
  forbids_frame_clause : Op → Bool
  require_order_by : Op → Bool

/-- Looking up a rewrite rule for a node type and applying it to a node
(`translator._rewrites[key]` with `KeyError` meaning "leave unchanged"). -/
def applyRewrite (rewrites : String → Option (Op → Op)) (key : String) (f : Op) : Op :=
  match rewrites key with
  | some rule => rule f
  | none => f

/-- `str.upper()` (ASCII uppercase), computed over the string's character
list. -/
def upperAscii (s : String) : String := String.mk (s.data.map Char.toUpper)

namespace Registry

/-- `cumulative_to_window` from `registry/window.py`: replace the cumulative
aggregate by its plain reduction, apply any registered rewrite rule for the
reduction's type, and windowize it over the frame with
`start=None, end=0`. -/
def cumulative_to_window (cfg : TransCfg) (func : Op) (frame : Frame) : Except Err Op :=
  match func with
  | .cumulative k arg whr =>
    let func1 := Op.agg (cumulative_to_reduction k) arg whr
    let func2 :=
      match cfg.rewrites func1.typeName with
      | some rule => rule func1
      | none => func1
    let frame1 := frame.copyStartEnd none (some zeroBoundary)
    .ok (windowize_function func2 frame1)
  | _ => .error .keyError

/-- `interval_boundary_to_integer` from `registry/window.py`. -/
def interval_boundary_to_integer : Option Boundary → Except Err (Option Boundary)
  | none => .ok none
  | some b =>
    if b.output_dtype.is_numeric then .ok (some b)
    else
      let value := b.value
      match mapIntervalToMicroseconds value.output_dtype.unit with
      | none =>
        .error (.ibisInputError ("Unsupported interval unit: " ++ value.output_dtype.unit))
      | some multiplier =>
        match value with
        | .literal v _ =>
          .ok (some (b.copyValue (.literal (v * multiplier) DType.int64)))
        | _ =>
          .ok (some (b.copyValue
            (.multiply (.cast value DType.int64) (.literal multiplier DType.int64))))

/-- `time_range_to_range_window` from `registry/window.py`. -/
def time_range_to_range_window (frame : Frame) : Except Err Frame :=
  if frame.order_by.length > 1 then
    .error (.ibisInputError
      ("Expected 1 order-by variable, got " ++ toString frame.order_by.length))
  else
    match frame.order_by with
    | [] => .error .indexError
    | Op.sortKey e asc :: _ => do
      let order_by := Op.sortKey (Op.cast e DType.int64) asc
      let start ← interval_boundary_to_integer frame.start
      let stop ← interval_boundary_to_integer frame.stop
      pure (frame.copyOrderStartEnd [order_by] start stop)
    | _ :: _ => .error .attributeError

/-- `format_window_boundary` from `registry/window.py`. -/
def format_window_boundary (tr : Op → Except Err String) (boundary : Boundary) :
    Except Err String :=
  match boundary.value with
  | .literal 0 _ => .ok "CURRENT ROW"
  | _ => do
    let value ← tr boundary.value
    let direction := if boundary.preceding then "PRECEDING" else "FOLLOWING"
    pure (value ++ " " ++ direction)

/-- `format_window_frame` from `registry/window.py`. -/
def format_window_frame (cfg : TransCfg) (tr : Op → Except Err String)
    (func : Op) (frame : Frame) : Except Err String := do
  let partComponents ←
    if frame.group_by.isEmpty then pure []
    else do
      let partition_args ← frame.group_by.mapM tr
      pure ["PARTITION BY " ++ String.intercalate ", " partition_args]
  let orderComponents ←
    if frame.order_by.isEmpty then pure []
    else do
      let order_args ← frame.order_by.mapM tr
      pure ["ORDER BY " ++ String.intercalate ", " order_args]
  let frameComponents ←
    match frame.start, frame.stop with
    | none, none =>
      -- no-op, default is full sample
      pure []
    | _, _ =>
      if cfg.forbids_frame_clause func then pure []
      else do
        let startS ←
          match frame.start with
          | none => pure "UNBOUNDED PRECEDING"
          | some b => format_window_boundary tr b
        let stopS ←
          match frame.stop with
          | none => pure "UNBOUNDED FOLLOWING"
          | some b => format_window_boundary tr b
        pure [upperAscii frame.how ++ " BETWEEN " ++ startS ++ " AND " ++ stopS]
  pure ("OVER (" ++ String.intercalate " " (partComponents ++ orderComponents ++ frameComponents) ++ ")")

/-- `window` from `registry/window.py`: the string-SQL registry rule for
`ops.WindowFunction` nodes, given the window's wrapped function and frame. -/
def window (cfg : TransCfg) (tr : Op → Except Err String)
    (func : Op) (frame : Frame) : Except Err String := do
  if func.isUnsupportedWindowReduction then
    throw (Err.unsupportedOperationError
      (func.typeName ++ " is not supported in window functions"))
  else if func.isCumulativeOp then do
    let arg ← cumulative_to_window cfg func frame
    tr arg
  else do
    let frame1 ←
      if cfg.require_order_by func && frame.order_by.isEmpty then
        match func.funcArg with
        | some a => pure (frame.copyOrderBy [a.toSortKey])
        | none => throw Err.attributeError
      else pure frame
    let frame2 ←
      match frame1 with
      | Frame.range _ _ _ _ =>
        if frame1.order_by.any (fun c => c.output_dtype.is_temporal) then
          time_range_to_range_window frame1
        else pure frame1
      | Frame.rows _ _ _ _ _ =>
        if frame1.max_lookback ≠ none then
          throw (Err.notImplementedError
            "Rows with max lookback is not implemented for SQL-based backends.")
        else pure frame1
    let window_formatted ← format_window_frame cfg tr func frame2
    let arg_formatted ← tr func
    if func.isRankBase then
      pure ("(" ++ arg_formatted ++ " " ++ window_formatted ++ " - 1)")
    else
      pure (arg_formatted ++ " " ++ window_formatted)

end Registry

/-- A SQLAlchemy column/selectable type descriptor. -/
inductive SaType where
  | largeBinary
  | dialectType (d : DType)
deriving DecidableEq

/-- A SQLAlchemy expression object built by the alchemy registry rules:
abstract translations of sub-nodes (`base`), generic function calls,
string literals, casts, aggregate FILTER clauses, scalar subqueries,
selectables, OVER clauses (with an optional frame spec
`(how, start, end)`), and the `result - 1` adjustment. -/
inductive AFrag where
  | base (op : Op)
  | call (fn : String) (args : List AFrag)
  | strLit (s : String)
  | sqlCast (arg : AFrag) (ty : SaType)
  | filtered (agg : AFrag) (cond : AFrag)
  | scalarSubquery (arg : AFrag)
  | selectFrag (arg : AFrag)
  | over (red : AFrag) (partition_by : List AFrag) (order_by : List AFrag)
      (frameSpec : Option (String × Option Int × Option Int))
  | minusOne (arg : AFrag)

def AFrag.isMinusOne : AFrag → Bool
  | .minusOne _ => true
  | _ => false

/-- The SQLAlchemy translator's rewrite table and dialect capability flags
consulted by the alchemy registry rules: `_rewrites`,
`_forbids_frame_clause`, `_require_order_by`,
`_has_reduction_filter_syntax`, `native_json_type`, the dialect's
`integer_to_timestamp` conversion helper and `get_sqla_type`. -/
structure ACfg where
  rewrites : String → Option (Op → Op)
  forbids_frame_clause : Op → Bool
  require_order_by : Op → Bool
  has_reduction_filter_syntax : Bool
  native_json_type : Bool
  integer_to_timestamp : AFrag → AFrag
  get_sqla_type : DType → SaType

namespace Alchemy

/-- The `contextlib.suppress(AttributeError): arg = arg.scalar_subquery()`
coercion in `_varargs_call`: a translated argument that is a full query
result (a selectable) is coerced to a scalar subquery; any other fragment
lacks the method, the `AttributeError` is suppressed and the fragment is
kept unchanged. -/
def scalar_subquery_coerce : AFrag → AFrag
  | .selectFrag q => .scalarSubquery (.selectFrag q)
  | f => f

/-- `_varargs_call` from `alchemy/registry.py`: translate each raw argument
left-to-right, apply the scalar-subquery coercion, and call the SQL
function positionally on the fragments. -/
def varargs_call (sa_func : List AFrag → AFrag) (tr : Op → AFrag) (args : List Op) : AFrag :=
  sa_func (args.map fun raw_arg => scalar_subquery_coerce (tr raw_arg))

/-- `fixed_arity` from `alchemy/registry.py` (the formatter it returns,
applied to a translator and a node). -/
def fixed_arity (sa_func : List AFrag → AFrag) (arity : Nat) (tr : Op → AFrag)
    (op : Op) : Except Err AFrag :=
  let arg_count := op.args.length
  if arity ≠ arg_count then
    .error (.ibisError
      ("Incorrect number of args. Expected: " ++ toString arity ++ ". Current: " ++ toString arg_count))
  else
    .ok (varargs_call sa_func tr op.args)

/-- `_cast` from `alchemy/registry.py`. -/
def cast (acfg : ACfg) (tr : Op → AFrag) (arg : Op) (typ : DType) : AFrag :=
  let sa_arg := tr arg
  let arg_dtype := arg.output_dtype
  if arg_dtype.is_integer && typ.is_timestamp then
    acfg.integer_to_timestamp sa_arg
  else if arg_dtype.is_binary && typ.is_string then
    .call "encode" [sa_arg, .strLit "escape"]
  else if typ.is_binary then
    .sqlCast sa_arg .largeBinary
  else if typ.is_json && !acfg.native_json_type then
    sa_arg
  else
    .sqlCast sa_arg (acfg.get_sqla_type typ)

/-- `_count_star` from `alchemy/registry.py`. -/
def count_star (acfg : ACfg) (tr : Op → AFrag) (op : Op) : AFrag :=
  match op.whereAttr with
  | none => .call "count" []
  | some whr =>
    if acfg.has_reduction_filter_syntax then
      .filtered (.call "count" []) (tr whr)
    else
      .call "count" [tr (.whereOp whr (.literal 1 .int8) none)]

/-- `_cumulative_to_window` from `alchemy/registry.py`: replace the
cumulative aggregate by its plain reduction carrying the original display
name, apply any rewrite rule registered for the reduction's type, and
windowize over the frame with `start=None, end=0`. -/
def cumulative_to_window (acfg : ACfg) (op : Op) (frame : Frame) : Except Err Op :=
  match op with
  | .cumulative k arg whr =>
    let new_op := Op.agg (cumulative_to_reduction k) arg whr
    let new_expr := Op.aliasOp new_op (Op.cumulative k arg whr).nameAttr
    let new_frame := frame.copyStartEnd none (some zeroBoundary)
    let new_expr2 :=
      match acfg.rewrites new_op.typeName with
      | some rule => rule new_expr
      | none => new_expr
    .ok (windowize_function new_expr2 new_frame)
  | _ => .error .keyError

/-- `_translate_window_boundary` from `alchemy/registry.py`. -/
def translate_window_boundary : Option Boundary → Except Err (Option Int)
  | none => .ok none
  | some b =>
    match b.value with
    | .literal v _ =>
      if b.preceding then .ok (some (-v)) else .ok (some v)
    | _ => .error (.translationError "Window boundaries must be literal values")

/-- `_window_function` from `alchemy/registry.py`: the SQLAlchemy registry
rule for `ops.WindowFunction` nodes, given the window's wrapped function
and frame. -/
def window_function (acfg : ACfg) (tr : Op → AFrag)
    (func : Op) (frame : Frame) : Except Err AFrag := do
  if func.isCumulativeOp then do
    let f ← cumulative_to_window acfg func frame
    pure (tr f)
  else do
    let reduction := tr func
    let order_by ←
      if acfg.require_order_by func && frame.order_by.isEmpty then
        match func.funcArg with
        | some a => pure [tr a]
        | none => throw Err.attributeError
      else pure (frame.order_by.map tr)
    let partition_by := frame.group_by.map tr
    let how ←
      match frame with
      | Frame.rows _ _ _ _ ml =>
        if ml ≠ none then
          throw (Err.notImplementedError
            "Rows with max lookback is not implemented for SQLAlchemy-based backends.")
        else pure "rows"
      | Frame.range _ _ _ _ => pure "range_"
    let additional_params ←
      if acfg.forbids_frame_clause func then
        -- some functions on some backends don't support frame clauses
        pure none
      else do
        let start ← translate_window_boundary frame.start
        let stop ← translate_window_boundary frame.stop
        pure (some (how, start, stop))
    let result := AFrag.over reduction partition_by order_by additional_params
    if func.isRowNumberLike then
      pure (AFrag.minusOne result)
    else
      pure result

end Alchemy

section Claims

/-- Claim C2: translating a cumulative aggregate node (`CumulativeSum`,
`CumulativeMin`, `CumulativeMax`, `CumulativeMean`, `CumulativeAny`,
`CumulativeAll`) with frame `F` produces the same result as translating the
corresponding plain reduction over the same arguments, windowed with `F`
modified to `start=None` (unbounded preceding) and `end=0` (current row),
with any registered rewrite rule for that reduction kind applied before
windowing — in the string-SQL window rule and in the SQLAlchemy window rule
(where the reduction additionally carries the original display name). -/
theorem cumulative_desugars_to_windowed_reduction
    (cfg : TransCfg) (tr : Op → Except Err String)
    (acfg : ACfg) (tra : Op → AFrag)
    (k : CumKind) (arg : Op) (whr : Option Op) (frame : Frame) :
    Registry.window cfg tr (Op.cumulative k arg whr) frame
      = tr (windowize_function
          (applyRewrite cfg.rewrites (Op.agg (cumulative_to_reduction k) arg whr).typeName
            (Op.agg (cumulative_to_reduction k) arg whr))
          (frame.copyStartEnd none (some zeroBoundary)))
    ∧ Alchemy.window_function acfg tra (Op.cumulative k arg whr) frame
      = Except.ok (tra (windowize_function
          (applyRewrite acfg.rewrites (Op.agg (cumulative_to_reduction k) arg whr).typeName
            (Op.aliasOp (Op.agg (cumulative_to_reduction k) arg whr)
              (Op.cumulative k arg whr).nameAttr))
          (frame.copyStartEnd none (some zeroBoundary)))) := by
  exact ⟨rfl, rfl⟩

/-- Claim C3: normalizing a range frame with a temporal order key produces a
new frame in which the order expression is wrapped in a cast to int64 and
each boundary is converted by `interval_boundary_to_integer`; an absent
boundary stays `None`, an already-numeric boundary is returned unchanged,
a literal interval boundary is multiplied by the unit-to-microsecond factor
(W=604800000000, D=86400000000, h=3600000000, m=60000000, s=1000000,
ms=1000, us=1), and a boundary of `2` with unit `'D'` normalizes to the
literal `172800000000`. (The functions are pure: the original frame and
boundary nodes are never mutated.) -/
theorem temporal_range_frame_normalization :
    (Registry.interval_boundary_to_integer none = .ok none)
    ∧ (∀ b : Boundary, b.output_dtype.is_numeric = true →
        Registry.interval_boundary_to_integer (some b) = .ok (some b))
    ∧ (∀ (v : Int) (u : String) (p : Bool) (f : Int),
        mapIntervalToMicroseconds u = some f →
        Registry.interval_boundary_to_integer
            (some (Boundary.mk (Op.literal v (DType.interval u)) p))
          = .ok (some (Boundary.mk (Op.literal (v * f) DType.int64) p)))
    ∧ (mapIntervalToMicroseconds "W" = some 604800000000
        ∧ mapIntervalToMicroseconds "D" = some 86400000000
        ∧ mapIntervalToMicroseconds "h" = some 3600000000
        ∧ mapIntervalToMicroseconds "m" = some 60000000
        ∧ mapIntervalToMicroseconds "s" = some 1000000
        ∧ mapIntervalToMicroseconds "ms" = some 1000
        ∧ mapIntervalToMicroseconds "us" = some 1)
    ∧ (∀ (gb : List Op) (e : Op) (asc : Bool) (s en : Option Boundary),
        Registry.time_range_to_range_window (Frame.range gb [Op.sortKey e asc] s en)
          = do
              let s2 ← Registry.interval_boundary_to_integer s
              let e2 ← Registry.interval_boundary_to_integer en
              pure (Frame.range gb [Op.sortKey (Op.cast e DType.int64) asc] s2 e2))
    ∧ (Registry.interval_boundary_to_integer
          (some (Boundary.mk (Op.literal 2 (DType.interval "D")) true))
        = .ok (some (Boundary.mk (Op.literal 172800000000 DType.int64) true))) := by
  refine ⟨rfl, ?_, ?_, ⟨rfl, rfl, rfl, rfl, rfl, rfl, rfl⟩, ?_, rfl⟩
  · intro b h
    simp only [Registry.interval_boundary_to_integer]
    rw [h]
    rfl
  · intro v u p f h
    simp only [Registry.interval_boundary_to_integer, Boundary.output_dtype, Boundary.value,
      Op.output_dtype, DType.is_numeric, DType.unit, Boundary.copyValue]
    rw [h]
    rfl
  · intro gb e asc s en
    rfl

/-- Claim C4: a non-numeric range-frame boundary whose interval value's
time unit has no microsecond conversion factor is rejected by
`interval_boundary_to_integer` with the input error naming the unit (the
spec's `UnsupportedUnit`), and no boundary is emitted; in particular a
month-unit (`'M'`) boundary raises it. -/
theorem unsupported_interval_unit_rejected :
    (∀ b : Boundary, b.output_dtype.is_numeric = false →
        mapIntervalToMicroseconds b.value.output_dtype.unit = none →
        Registry.interval_boundary_to_integer (some b)
          = .error (.ibisInputError
              ("Unsupported interval unit: " ++ b.value.output_dtype.unit)))
    ∧ (Registry.interval_boundary_to_integer
          (some (Boundary.mk (Op.literal 3 (DType.interval "M")) true))
        = .error (.ibisInputError "Unsupported interval unit: M")) := by
  refine ⟨?_, rfl⟩
  intro b h1 h2
  simp only [Boundary.output_dtype] at h1
  simp only [Registry.interval_boundary_to_integer, Boundary.output_dtype]
  rw [h1, h2]
  rfl

/-- Claim C10: converting a temporal range frame requires exactly one
order-by key: with more than one order-by key,
`time_range_to_range_window` raises the input error reporting the number
of order-by variables, whatever the boundaries are (so before converting
any boundary); and a successful conversion implies the frame had exactly
one order-by key. -/
theorem range_window_single_order_key :
    (∀ frame : Frame, frame.order_by.length > 1 →
        Registry.time_range_to_range_window frame
          = .error (.ibisInputError
              ("Expected 1 order-by variable, got " ++ toString frame.order_by.length)))
    ∧ (∀ (frame frame2 : Frame),
        Registry.time_range_to_range_window frame = .ok frame2 →
        frame.order_by.length = 1) := by
  constructor
  · intro frame h
    unfold Registry.time_range_to_range_window
    rw [if_pos h]
  · intro frame frame2 h
    unfold Registry.time_range_to_range_window at h
    split at h
    · exact absurd h (by simp)
    · next hlen =>
      split at h
      · exact absurd h (by simp)
      · next e asc tail heq =>
        rw [heq] at hlen ⊢
        simp only [List.length_cons] at hlen ⊢
        omega
      · exact absurd h (by simp)

/-- Claim C6: the rule produced by `fixed_arity(fn, n)` raises `ArityError`
(`IbisError` naming the expected and actual counts) exactly when the node's
argument count differs from `n`; when the count equals `n` each argument is
translated independently left-to-right, each translated argument that is a
full query result is coerced to a scalar subquery, and `fn` is called
positionally on the resulting fragments. -/
theorem fixed_arity_contract (sa_func : List AFrag → AFrag) (arity : Nat)
    (tr : Op → AFrag) (op : Op) :
    (op.args.length ≠ arity →
      Alchemy.fixed_arity sa_func arity tr op
        = .error (.ibisError
            ("Incorrect number of args. Expected: " ++ toString arity
              ++ ". Current: " ++ toString op.args.length)))
    ∧ (op.args.length = arity →
      Alchemy.fixed_arity sa_func arity tr op
        = .ok (sa_func (op.args.map fun a => Alchemy.scalar_subquery_coerce (tr a))))
    ∧ (∀ q : AFrag, Alchemy.scalar_subquery_coerce (AFrag.selectFrag q)
        = AFrag.scalarSubquery (AFrag.selectFrag q)) := by
  refine ⟨?_, ?_, fun q => rfl⟩
  · intro h
    unfold Alchemy.fixed_arity
    rw [if_pos (fun e => h e.symm)]
  · intro h
    unfold Alchemy.fixed_arity
    rw [if_neg (fun hne => hne h.symm)]
    rfl

/-- Claim C8: translating a count-star node selects its strategy by the
dialect's native-FILTER capability flag: with the flag set, a filtered bare
count aggregate over the translated predicate; with the flag unset, a count
of the conditional node mapping predicate-true rows to `1` and others to
`NULL`; with no predicate, the bare count aggregate. -/
theorem count_star_filter_strategy (acfg : ACfg) (tr : Op → AFrag) (whr : Op) :
    (Alchemy.count_star acfg tr (Op.countStarOp none) = .call "count" [])
    ∧ (acfg.has_reduction_filter_syntax = true →
      Alchemy.count_star acfg tr (Op.countStarOp (some whr))
        = .filtered (.call "count" []) (tr whr))
    ∧ (acfg.has_reduction_filter_syntax = false →
      Alchemy.count_star acfg tr (Op.countStarOp (some whr))
        = .call "count" [tr (.whereOp whr (.literal 1 .int8) none)]) := by
  refine ⟨rfl, ?_, ?_⟩ <;> intro h <;>
    simp only [Alchemy.count_star, Op.whereAttr] <;> rw [h] <;> rfl

lemma DType.binary_not_integer {d : DType} (h : d.is_binary = true) :
    d.is_integer = false := by
  cases d <;> simp_all [DType.is_binary, DType.is_integer]

lemma DType.binary_not_timestamp {d : DType} (h : d.is_binary = true) :
    d.is_timestamp = false := by
  cases d <;> simp_all [DType.is_binary, DType.is_timestamp]

lemma DType.binary_not_string {d : DType} (h : d.is_binary = true) :
    d.is_string = false := by
  cases d <;> simp_all [DType.is_binary, DType.is_string]

lemma DType.json_not_timestamp {d : DType} (h : d.is_json = true) :
    d.is_timestamp = false := by
  cases d <;> simp_all [DType.is_json, DType.is_timestamp]

lemma DType.json_not_string {d : DType} (h : d.is_json = true) :
    d.is_string = false := by
  cases d <;> simp_all [DType.is_json, DType.is_string]

lemma DType.json_not_binary {d : DType} (h : d.is_json = true) :
    d.is_binary = false := by
  cases d <;> simp_all [DType.is_json, DType.is_binary]

/-- Claim C9: cast translation is type-directed by source and target type:
integer→timestamp yields the dialect's integer-to-timestamp conversion
helper applied to the translated argument (in particular
`Cast(IntegerLiteral(1000), to=Timestamp)` wraps the literal `1000` in that
helper); binary→string yields the escape-encoding function call; any cast
to binary yields an explicit binary cast; a cast to JSON on a dialect
without a native JSON column type returns the translated argument
unchanged; every other cast yields the generic type-cast to the target
type. -/
theorem cast_type_directed (acfg : ACfg) (tr : Op → AFrag) (arg : Op) (typ : DType) :
    (arg.output_dtype.is_integer = true → typ.is_timestamp = true →
      Alchemy.cast acfg tr arg typ = acfg.integer_to_timestamp (tr arg))
    ∧ (arg.output_dtype.is_binary = true → typ.is_string = true →
      Alchemy.cast acfg tr arg typ = .call "encode" [tr arg, .strLit "escape"])
    ∧ (typ.is_binary = true →
      Alchemy.cast acfg tr arg typ = .sqlCast (tr arg) .largeBinary)
    ∧ (typ.is_json = true → acfg.native_json_type = false →
      Alchemy.cast acfg tr arg typ = tr arg)
    ∧ ((arg.output_dtype.is_integer && typ.is_timestamp) = false →
      (arg.output_dtype.is_binary && typ.is_string) = false →
      typ.is_binary = false →
      (typ.is_json && !acfg.native_json_type) = false →
      Alchemy.cast acfg tr arg typ = .sqlCast (tr arg) (acfg.get_sqla_type typ))
    ∧ (Alchemy.cast acfg tr (Op.literal 1000 DType.int64) DType.timestampT
        = acfg.integer_to_timestamp (tr (Op.literal 1000 DType.int64))) := by
  refine ⟨?_, ?_, ?_, ?_, ?_, rfl⟩
  · intro h1 h2
    simp [Alchemy.cast, h1, h2]
  · intro h1 h2
    simp [Alchemy.cast, h1, h2, DType.binary_not_integer h1]
  · intro h
    simp [Alchemy.cast, h, DType.binary_not_timestamp h, DType.binary_not_string h]
  · intro h1 h2
    simp [Alchemy.cast, h1, h2, DType.json_not_timestamp h1, DType.json_not_string h1,
      DType.json_not_binary h1]
  · intro h1 h2 h3 h4
    simp [Alchemy.cast, h1, h2, h3, h4]

/-- A concrete string-SQL translator configuration with no rewrites and no
dialect restrictions, used to evaluate the theorems on concrete inputs. -/
def demoCfg : TransCfg where
  rewrites := fun _ => none
  forbids_frame_clause := fun _ => false
  require_order_by := fun _ => false

/-- A concrete SQLAlchemy translator configuration with no rewrites, no
dialect restrictions and no native FILTER or JSON support. -/
def demoACfg : ACfg where
  rewrites := fun _ => none
  forbids_frame_clause := fun _ => false
  require_order_by := fun _ => false
  has_reduction_filter_syntax := false
  native_json_type := false
  integer_to_timestamp := fun f => AFrag.call "to_timestamp" [f]
  get_sqla_type := SaType.dialectType

/-- A concrete string-SQL base translation. -/
def demoStrTr : Op → Except Err String := fun _ => .ok "x"

/-- A concrete string-SQL base translation rendering every node as `k`. -/
def demoKTr : Op → Except Err String := fun _ => .ok "k"

/-- A concrete SQLAlchemy base translation. -/
def demoTra : Op → AFrag := AFrag.base

def xcol : Op := Op.column "x" DType.int64

def kcol : Op := Op.sortKey (Op.column "t" DType.int64) true

/-- Counterexample to claim C1 as stated: in the SQLAlchemy
`_window_function`, a windowed percent-rank produces a plain OVER fragment
with no `- 1` subtraction, so not every rank-family operation is adjusted
to the zero-based convention. -/
theorem rank_family_subtraction_cex :
    Alchemy.window_function demoACfg demoTra (Op.rank RankKind.percentRank (some xcol))
        (Frame.rows [] [kcol] none none none)
      = .ok (AFrag.over (AFrag.base (Op.rank RankKind.percentRank (some xcol))) []
          [AFrag.base kcol] (some ("rows", none, none)))
    ∧ AFrag.isMinusOne
        (AFrag.over (AFrag.base (Op.rank RankKind.percentRank (some xcol))) []
          [AFrag.base kcol] (some ("rows", none, none))) = false :=
  ⟨rfl, rfl⟩

/-- Claim C1 (amended): the string-SQL window rule emits
`(<rank-call> <window-clause> - 1)` for every rank-family operation
(row-number, dense-rank, min-rank, percent-rank, cumulative-distribution,
ntile); the SQLAlchemy window rule subtracts one exactly for row-number,
dense-rank, min-rank and ntile, and emits percent-rank and
cumulative-distribution results unadjusted. -/
theorem rank_family_subtraction_amended (cfg : TransCfg) (tr : Op → Except Err String)
    (acfg : ACfg) (tra : Op → AFrag) (k : RankKind) (a : Option Op)
    (gb : List Op) (o : Op) (obs : List Op) (sb eb : Option Boundary) :
    (Registry.window cfg tr (Op.rank k a) (Frame.rows gb (o :: obs) sb eb none)
      = do
          let w ← Registry.format_window_frame cfg tr (Op.rank k a)
            (Frame.rows gb (o :: obs) sb eb none)
          let r ← tr (Op.rank k a)
          pure ("(" ++ r ++ " " ++ w ++ " - 1)"))
    ∧ ((k = RankKind.rowNumber ∨ k = RankKind.denseRank ∨ k = RankKind.minRank
          ∨ k = RankKind.ntile) →
      Alchemy.window_function acfg tra (Op.rank k a) (Frame.rows gb (o :: obs) sb eb none)
        = do
            let params ←
              if acfg.forbids_frame_clause (Op.rank k a) then pure none
              else do
                let s ← Alchemy.translate_window_boundary sb
                let e ← Alchemy.translate_window_boundary eb
                pure (some ("rows", s, e))
            pure (AFrag.minusOne (AFrag.over (tra (Op.rank k a)) (gb.map tra)
              ((o :: obs).map tra) params)))
    ∧ ((k = RankKind.percentRank ∨ k = RankKind.cumeDist) →
      Alchemy.window_function acfg tra (Op.rank k a) (Frame.rows gb (o :: obs) sb eb none)
        = do
            let params ←
              if acfg.forbids_frame_clause (Op.rank k a) then pure none
              else do
                let s ← Alchemy.translate_window_boundary sb
                let e ← Alchemy.translate_window_boundary eb
                pure (some ("rows", s, e))
            pure (AFrag.over (tra (Op.rank k a)) (gb.map tra)
              ((o :: obs).map tra) params)) := by
  refine ⟨?_, ?_, ?_⟩
  · unfold Registry.window
    simp only [Frame.order_by, List.isEmpty_cons, Bool.and_false]
    rfl
  · intro hk
    unfold Alchemy.window_function
    simp only [Frame.order_by, List.isEmpty_cons, Bool.and_false]
    rcases hk with rfl | rfl | rfl | rfl <;> rfl
  · intro hk
    unfold Alchemy.window_function
    simp only [Frame.order_by, List.isEmpty_cons, Bool.and_false]
    rcases hk with rfl | rfl <;> rfl

/-- Witness for the amended claim C1 at a concrete input: a windowed
row-number on the SQLAlchemy path is emitted with the `- 1` adjustment. -/
theorem rank_family_subtraction_amended_witness :
    Alchemy.window_function demoACfg demoTra (Op.rank RankKind.rowNumber none)
        (Frame.rows [] [kcol] none none none)
      = .ok (AFrag.minusOne (AFrag.over (AFrag.base (Op.rank RankKind.rowNumber none)) []
          [AFrag.base kcol] (some ("rows", none, none)))) :=
  (rank_family_subtraction_amended demoCfg demoStrTr demoACfg demoTra
    RankKind.rowNumber none [] kcol [] none none).2.1 (Or.inl rfl)

/-- Counterexample to claim C5 as stated: a frame whose start and end are
both absent renders with no frame clause at all (the default full sample),
not as `UNBOUNDED PRECEDING`/`UNBOUNDED FOLLOWING`, even for a function
outside the frame-clause-incompatible set. -/
theorem frame_boundary_formatting_cex :
    Registry.format_window_frame demoCfg demoStrTr xcol
        (Frame.rows [] [kcol] none none none)
      = .ok "OVER (ORDER BY x)"
    ∧ "OVER (ORDER BY x)"
        ≠ "OVER (ORDER BY x ROWS BETWEEN UNBOUNDED PRECEDING AND UNBOUNDED FOLLOWING)" :=
  ⟨rfl, by decide⟩

/-- Claim C5 (amended): a boundary whose value is the literal `0` renders
exactly as `CURRENT ROW`; a boundary with literal value `5` and the
preceding direction renders as the translated expression plus
`PRECEDING`; when at least one boundary is present, an absent start
renders as `UNBOUNDED PRECEDING` and an absent end as
`UNBOUNDED FOLLOWING`; when both boundaries are absent the frame clause is
omitted (default full frame); and for functions in the dialect's
frame-clause-incompatible set the frame clause is omitted entirely. -/
theorem frame_boundary_formatting_amended (cfg : TransCfg)
    (tr : Op → Except Err String) (func o : Op) (d : DType) (p : Bool)
    (ml : Option Int) (s e : Boundary) :
    (Registry.format_window_boundary tr (Boundary.mk (Op.literal 0 d) p)
      = .ok "CURRENT ROW")
    ∧ (tr (Op.literal 5 d) = .ok "5" →
      Registry.format_window_boundary tr (Boundary.mk (Op.literal 5 d) true)
        = .ok "5 PRECEDING")
    ∧ (cfg.forbids_frame_clause func = false → tr o = .ok "k" →
      Registry.format_window_frame cfg tr func
          (Frame.rows [] [o] none (some (Boundary.mk (Op.literal 0 DType.int8) false)) ml)
        = .ok "OVER (ORDER BY k ROWS BETWEEN UNBOUNDED PRECEDING AND CURRENT ROW)")
    ∧ (cfg.forbids_frame_clause func = false → tr o = .ok "k" →
      tr (Op.literal 5 DType.int8) = .ok "5" →
      Registry.format_window_frame cfg tr func
          (Frame.rows [] [o] (some (Boundary.mk (Op.literal 5 DType.int8) true)) none ml)
        = .ok "OVER (ORDER BY k ROWS BETWEEN 5 PRECEDING AND UNBOUNDED FOLLOWING)")
    ∧ (tr o = .ok "k" →
      Registry.format_window_frame cfg tr func (Frame.rows [] [o] none none ml)
        = .ok "OVER (ORDER BY k)")
    ∧ (cfg.forbids_frame_clause func = true → tr o = .ok "k" →
      Registry.format_window_frame cfg tr func (Frame.rows [] [o] (some s) (some e) ml)
        = .ok "OVER (ORDER BY k)") := by
  refine ⟨rfl, ?_, ?_, ?_, ?_, ?_⟩
  · intro h
    simp only [Registry.format_window_boundary, Boundary.value, Boundary.preceding]
    rw [h]
    rfl
  · intro h1 h2
    simp only [Registry.format_window_frame, Registry.format_window_boundary,
      Frame.group_by, Frame.order_by, Frame.start, Frame.stop, Frame.how,
      Boundary.value, Boundary.preceding, List.mapM_cons, List.mapM_nil,
      List.isEmpty_cons, List.isEmpty_nil, h1, h2]
    rfl
  · intro h1 h2 h3
    simp only [Registry.format_window_frame, Registry.format_window_boundary,
      Frame.group_by, Frame.order_by, Frame.start, Frame.stop, Frame.how,
      Boundary.value, Boundary.preceding, List.mapM_cons, List.mapM_nil,
      List.isEmpty_cons, List.isEmpty_nil, h1, h2, h3]
    rfl
  · intro h
    simp only [Registry.format_window_frame, Frame.group_by, Frame.order_by,
      Frame.start, Frame.stop, List.mapM_cons, List.mapM_nil,
      List.isEmpty_cons, List.isEmpty_nil, h]
    rfl
  · intro h1 h2
    simp only [Registry.format_window_frame, Frame.group_by, Frame.order_by,
      Frame.start, Frame.stop, List.mapM_cons, List.mapM_nil,
      List.isEmpty_cons, List.isEmpty_nil, h1, h2]
    rfl

/-- Witness for the amended claim C5 at a concrete input: absent start with
a literal-zero end renders as
`ROWS BETWEEN UNBOUNDED PRECEDING AND CURRENT ROW`. -/
theorem frame_boundary_formatting_amended_witness :
    Registry.format_window_frame demoCfg demoKTr xcol
        (Frame.rows [] [kcol] none (some (Boundary.mk (Op.literal 0 DType.int8) false)) none)
      = .ok "OVER (ORDER BY k ROWS BETWEEN UNBOUNDED PRECEDING AND CURRENT ROW)" :=
  (frame_boundary_formatting_amended demoCfg demoKTr xcol kcol DType.int8 false none
    zeroBoundary zeroBoundary).2.2.1 rfl rfl

/-- Counterexample to claim C7 as stated: the SQLAlchemy `_window_function`
performs no unsupported-reduction check — a window whose wrapped reduction
is a group-concat aggregate translates to a windowed fragment with no
error raised. -/
theorem window_unsupported_reduction_cex :
    Alchemy.window_function demoACfg demoTra (Op.agg AggKind.groupConcat xcol none)
        (Frame.rows [] [kcol] none none none)
      = .ok (AFrag.over (AFrag.base (Op.agg AggKind.groupConcat xcol none)) []
          [AFrag.base kcol] (some ("rows", none, none)))
    ∧ (Except.ok (AFrag.over (AFrag.base (Op.agg AggKind.groupConcat xcol none)) []
          [AFrag.base kcol] (some ("rows", none, none))) : Except Err AFrag)
        ≠ Except.error (Err.unsupportedOperationError
            "GroupConcat is not supported in window functions") :=
  ⟨rfl, fun h => nomatch h⟩

/-- Claim C7 (amended): the string-SQL window rule rejects windows whose
wrapped reduction is approximate-median, group-concat or
approximate-distinct-count with `UnsupportedOperation` naming the kind and
produces no fragment; the SQLAlchemy window rule performs no such check:
group-concat and approximate-distinct-count (which have registry rules)
translate to windowed aggregate fragments without error. -/
theorem window_unsupported_reduction_amended (cfg : TransCfg)
    (tr : Op → Except Err String) (acfg : ACfg) (tra : Op → AFrag)
    (k : AggKind) (a : Op) (w : Option Op) (frame : Frame)
    (gb : List Op) (o : Op) (obs : List Op) :
    ((k = AggKind.approxMedian ∨ k = AggKind.groupConcat
        ∨ k = AggKind.approxCountDistinct) →
      Registry.window cfg tr (Op.agg k a w) frame
        = .error (.unsupportedOperationError
            ((Op.agg k a w).typeName ++ " is not supported in window functions")))
    ∧ ((k = AggKind.groupConcat ∨ k = AggKind.approxCountDistinct) →
      acfg.forbids_frame_clause (Op.agg k a w) = false →
      Alchemy.window_function acfg tra (Op.agg k a w)
          (Frame.rows gb (o :: obs) none none none)
        = .ok (AFrag.over (tra (Op.agg k a w)) (gb.map tra) ((o :: obs).map tra)
            (some ("rows", none, none)))) := by
  constructor
  · intro hk
    rcases hk with rfl | rfl | rfl <;> rfl
  · intro hk hf
    unfold Alchemy.window_function
    simp only [Frame.order_by, List.isEmpty_cons, Bool.and_false, hf]
    rcases hk with rfl | rfl <;> rfl

/-- Witness for the amended claim C7 at a concrete input: a windowed
approximate-distinct-count on the SQLAlchemy path yields a windowed
aggregate fragment. -/
theorem window_unsupported_reduction_amended_witness :
    Alchemy.window_function demoACfg demoTra
        (Op.agg AggKind.approxCountDistinct xcol none)
        (Frame.rows [] [kcol] none none none)
      = .ok (AFrag.over (AFrag.base (Op.agg AggKind.approxCountDistinct xcol none)) []
          [AFrag.base kcol] (some ("rows", none, none))) :=
  (window_unsupported_reduction_amended demoCfg demoStrTr demoACfg demoTra
    AggKind.approxCountDistinct xcol none (Frame.rows [] [kcol] none none none)
    [] kcol []).2 (Or.inr rfl) rfl

/-- Witness for claim C3 at a concrete input: a literal boundary of `3`
hours normalizes to the microsecond literal `10800000000`. -/
theorem temporal_range_frame_normalization_witness :
    Registry.interval_boundary_to_integer
        (some (Boundary.mk (Op.literal 3 (DType.interval "h")) false))
      = .ok (some (Boundary.mk (Op.literal 10800000000 DType.int64) false)) :=
  temporal_range_frame_normalization.2.2.1 3 "h" false 3600000000 rfl

/-- Witness for claim C4 at a concrete input: a quarter-unit (`'Q'`)
boundary is rejected with the input error naming the unit. -/
theorem unsupported_interval_unit_rejected_witness :
    Registry.interval_boundary_to_integer
        (some (Boundary.mk (Op.literal 9 (DType.interval "Q")) false))
      = .error (.ibisInputError "Unsupported interval unit: Q") :=
  unsupported_interval_unit_rejected.1
    (Boundary.mk (Op.literal 9 (DType.interval "Q")) false) rfl rfl

/-- Witness for claim C6 at a concrete input: a two-argument node under a
two-argument rule translates both arguments and calls the function
positionally; the same node under a three-argument rule raises the arity
error. -/
theorem fixed_arity_contract_witness :
    Alchemy.fixed_arity (fun args => AFrag.call "nullif" args) 2 demoTra
        (Op.multiply xcol xcol)
      = .ok (AFrag.call "nullif" [AFrag.base xcol, AFrag.base xcol])
    ∧ Alchemy.fixed_arity (fun args => AFrag.call "nullif" args) 3 demoTra
        (Op.multiply xcol xcol)
      = .error (.ibisError "Incorrect number of args. Expected: 3. Current: 2") :=
  ⟨(fixed_arity_contract (fun args => AFrag.call "nullif" args) 2 demoTra
      (Op.multiply xcol xcol)).2.1 rfl,
    (fixed_arity_contract (fun args => AFrag.call "nullif" args) 3 demoTra
      (Op.multiply xcol xcol)).1 (by decide)⟩

/-- Witness for claim C8 at a concrete input: without native FILTER
support, a filtered count-star becomes a count over the 1/NULL
conditional. -/
theorem count_star_filter_strategy_witness :
    Alchemy.count_star demoACfg demoTra (Op.countStarOp (some xcol))
      = .call "count" [AFrag.base (Op.whereOp xcol (Op.literal 1 DType.int8) none)] :=
  (count_star_filter_strategy demoACfg demoTra xcol).2.2 rfl

/-- Witness for claim C9 at a concrete input: casting the integer literal
`1000` to timestamp applies the dialect's conversion helper to the
translated literal. -/
theorem cast_type_directed_witness :
    Alchemy.cast demoACfg demoTra (Op.literal 1000 DType.int64) DType.timestampT
      = AFrag.call "to_timestamp" [AFrag.base (Op.literal 1000 DType.int64)] :=
  (cast_type_directed demoACfg demoTra (Op.literal 1000 DType.int64)
    DType.timestampT).1 rfl rfl

/-- Witness for claim C10 at a concrete input: a range frame with two
order-by keys is rejected with the input error reporting the count. -/
theorem range_window_single_order_key_witness :
    Registry.time_range_to_range_window (Frame.range [] [kcol, kcol] none none)
      = .error (.ibisInputError "Expected 1 order-by variable, got 2") :=
  range_window_single_order_key.1 (Frame.range [] [kcol, kcol] none none) (by decide)

end Claims
